import Mathlib

/-!
Shallow embedding of the WebRTC-MIDI bridge:
* `WebRTCMIDIManager` from `webrtc-midi-manager.js` (virtual device registry,
  statistics collector, manager send path), and
* `ElectronMIDIRTC` from `external/midi-rtc/platforms/electron.js`
  (bridge configuration and the cross-transport `sendMIDI` forwarding logic).

JavaScript `Map` objects are embedded as insertion-ordered association lists;
`Map.set` on an existing key replaces the value in place, otherwise appends.
Callback firings (`onTargetDiscovered`) and transport transmissions
(`connection.sendMIDI`, `rtpMidiSession.sendMessage`) are recorded in logs so
that theorems can count them.
-/

namespace MidiRtc

/-- Insertion-ordered map membership test, mirroring JS `Map.prototype.has`. -/
def mapHas {α : Type} : List (String × α) → String → Bool
  | [], _ => false
  | (k0, _) :: rest, k => k0 == k || mapHas rest k

/-- Insertion-ordered map lookup, mirroring JS `Map.prototype.get`. -/
def mapGet {α : Type} : List (String × α) → String → Option α
  | [], _ => none
  | (k0, v0) :: rest, k => if k0 == k then some v0 else mapGet rest k

/-- Insertion-ordered map update, mirroring JS `Map.prototype.set`: an existing
key keeps its insertion position and gets the new value; a new key is appended. -/
def mapSet {α : Type} : List (String × α) → String → α → List (String × α)
  | [], k, v => [(k, v)]
  | (k0, v0) :: rest, k, v =>
      if k0 == k then (k0, v) :: rest else (k0, v0) :: mapSet rest k v

/-- Statistics collector of the manager (`this.stats` in the constructor). -/
structure Stats where
  messagesReceived : Nat
  bytesReceived : Nat
  latency : Int
deriving DecidableEq

/-- A virtual MIDI input device as built by `createVirtualInput`.  The
`onmidimessage` handler slot is modelled as an optional handler identifier;
a freshly built device carries `none` (the source sets it to `null`). -/
structure VirtualInput where
  id : String
  name : String
  manufacturer : String
  type : String
  state : String
  connection : String
  target : String
  onmidimessage : Option Nat
deriving DecidableEq

/-- A virtual MIDI output device as built by `createVirtualOutput`.  The `send`
closure (which forwards to the manager's `sendMIDI` with the bound target) and
the no-op `clear` are behaviour, modelled by the `MEvent.send` operation. -/
structure VirtualOutput where
  id : String
  name : String
  manufacturer : String
  type : String
  state : String
  connection : String
  target : String
deriving DecidableEq

/-- The device object literal of `createVirtualInput(target)`. -/
def mkVirtualInput (target : String) : VirtualInput :=
  { id := "webrtc-midi-" ++ target
  , name := "WebRTC MIDI (" ++ target ++ ")"
  , manufacturer := "WebRTC"
  , type := "input"
  , state := "connected"
  , connection := "open"
  , target := target
  , onmidimessage := none }

/-- The device object literal of `createVirtualOutput(target)`. -/
def mkVirtualOutput (target : String) : VirtualOutput :=
  { id := "webrtc-midi-out-" ++ target
  , name := "WebRTC MIDI Out (" ++ target ++ ")"
  , manufacturer := "WebRTC"
  , type := "output"
  , state := "connected"
  , connection := "open"
  , target := target }

/-- An inbound message delivered to `handleMIDIMessage`:
`{ data, timestamp, target, latency }`. -/
structure MIDIMessage where
  data : List Nat
  timestamp : Int
  target : String
  latency : Int
deriving DecidableEq

/-- One transmission issued through `this.connection.sendMIDI` by the
manager's `sendMIDI`. -/
structure SendRec where
  data : List Nat
  timestamp : Int
  target : String
deriving DecidableEq

/-- State of a `WebRTCMIDIManager` instance.  `connection` is `none` while
`this.connection` is `null`, and `some b` when a connection object exists with
`isConnected() = b`.  `discoveries` logs the targets passed to the
`onTargetDiscovered` hook; `sent` logs calls to `connection.sendMIDI`. -/
structure ManagerState where
  connection : Option Bool
  virtualInputs : List (String × VirtualInput)
  virtualOutputs : List (String × VirtualOutput)
  isConnected : Bool
  connectionState : String
  stats : Stats
  discoveries : List String
  sent : List SendRec
deriving DecidableEq

/-- Manager state right after the constructor ran (empty registries, zeroed
stats), parameterised by the connection handle `initialize` installs. -/
def initialManager (conn : Option Bool) : ManagerState :=
  { connection := conn
  , virtualInputs := []
  , virtualOutputs := []
  , isConnected := false
  , connectionState := "disconnected"
  , stats := { messagesReceived := 0, bytesReceived := 0, latency := 0 }
  , discoveries := [], sent := [] }

/-- `createVirtualInput(target)`: unconditionally builds a fresh device,
stores it under `target`, fires `onTargetDiscovered(target, device)`, and
returns the device. -/
def createVirtualInput (s : ManagerState) (target : String) :
    VirtualInput × ManagerState :=
  let virtualInput := mkVirtualInput target
  ( virtualInput
  , { s with virtualInputs := mapSet s.virtualInputs target virtualInput
           , discoveries := s.discoveries ++ [target] } )

/-- `createVirtualOutput(target)`: builds the output device and stores it. -/
def createVirtualOutput (s : ManagerState) (target : String) :
    VirtualOutput × ManagerState :=
  let virtualOutput := mkVirtualOutput target
  (virtualOutput, { s with virtualOutputs := mapSet s.virtualOutputs target virtualOutput })

/-- `handleMIDIMessage(message)`: bumps the statistics, then creates a
virtual input for the message's target when none exists yet.  Dispatch to
`virtualInput.onmidimessage` and the global `onMIDIMessage` hook does not
change manager state. -/
def handleMIDIMessage (s : ManagerState) (m : MIDIMessage) : ManagerState :=
  let s1 := { s with stats :=
    { messagesReceived := s.stats.messagesReceived + 1
    , bytesReceived := s.stats.bytesReceived + m.data.length
    , latency := m.latency } }
  if mapHas s1.virtualInputs m.target then s1
  else (createVirtualInput s1 m.target).2

/-- `getVirtualInputs()`: snapshot of the input registry's values. -/
def getVirtualInputs (s : ManagerState) : List VirtualInput :=
  s.virtualInputs.map Prod.snd

/-- `getVirtualOutputs()`: snapshot of the output registry's values. -/
def getVirtualOutputs (s : ManagerState) : List VirtualOutput :=
  s.virtualOutputs.map Prod.snd

/-- `getVirtualInput(target)`. -/
def getVirtualInput (s : ManagerState) (target : String) : Option VirtualInput :=
  mapGet s.virtualInputs target

/-- `getVirtualOutput(target)`. -/
def getVirtualOutput (s : ManagerState) (target : String) : Option VirtualOutput :=
  mapGet s.virtualOutputs target

/-- The fixed target list of `handleConnectionStateChange`'s connected branch. -/
def defaultTargets : List String := ["default", "synth", "control", "feedback"]

/-- `handleConnectionStateChange(state)`: records the state, creates the four
default virtual outputs on `connected`, clears both registries on
`disconnected`/`failed`. -/
def handleConnectionStateChange (s : ManagerState) (state : String) : ManagerState :=
  let s1 := { s with connectionState := state, isConnected := state == "connected" }
  let s2 := if state == "connected"
            then defaultTargets.foldl (fun acc t => (createVirtualOutput acc t).2) s1
            else s1
  if state == "disconnected" || state == "failed"
  then { s2 with virtualInputs := [], virtualOutputs := [] }
  else s2

/-- `sendMIDI(data, timestamp, target)` of the manager: returns `false`
without sending when there is no connection or it is not connected; otherwise
forwards over the connection and returns `true`. -/
def sendMIDI (s : ManagerState) (data : List Nat) (timestamp : Int)
    (target : String) : Bool × ManagerState :=
  match s.connection with
  | none => (false, s)
  | some connected =>
      if connected
      then (true, { s with sent := s.sent ++ [⟨data, timestamp, target⟩] })
      else (false, s)

/-- `disconnect()`: closes and drops the connection, clears the input
registry (only), and resets the connection flags. -/
def disconnect (s : ManagerState) : ManagerState :=
  { s with connection := none
         , virtualInputs := []
         , isConnected := false
         , connectionState := "disconnected" }

/-- The external events that drive the manager (spec section 5: inbound
channel data, connection-state callbacks, host-initiated disconnect, and
sends from the host through a virtual output). -/
inductive MEvent where
  | msg (m : MIDIMessage)
  | stateChange (state : String)
  | discon
  | send (data : List Nat) (timestamp : Int) (target : String)
deriving DecidableEq

/-- One event-handling step of the manager. -/
def step (s : ManagerState) : MEvent → ManagerState
  | MEvent.msg m => handleMIDIMessage s m
  | MEvent.stateChange st => handleConnectionStateChange s st
  | MEvent.discon => disconnect s
  | MEvent.send d t tgt => (sendMIDI s d t tgt).2

/-- Running the manager over a sequence of events. -/
def run (s : ManagerState) (evs : List MEvent) : ManagerState :=
  evs.foldl step s

/-! ### ElectronMIDIRTC (platforms/electron.js) -/

/-- The three transports bridged by `ElectronMIDIRTC`. -/
inductive Transport where
  | usb
  | webrtc
  | rtpmidi
deriving DecidableEq

/-- The `this.bridgeConfig` record built in the `ElectronMIDIRTC`
constructor: four boolean forwarding edges. -/
structure BridgeConfig where
  webrtcToRtpMidi : Bool
  rtpMidiToWebRTC : Bool
  usbToWebRTC : Bool
  usbToRtpMidi : Bool
deriving DecidableEq

/-- Constructor options relevant to `bridgeConfig`.  The four `bridge...`
fields model `options.bridgeXtoY` (`none` = absent/undefined); the four `bc...`
fields model the keys of the `options.bridgeConfig` object spread over the
defaults last (`none` = key absent). -/
structure ElectronOptions where
  bridgeWebRTCtoRTPMIDI : Option Bool
  bridgeRTPMIDItoWebRTC : Option Bool
  bridgeUSBtoWebRTC : Option Bool
  bridgeUSBtoRTPMIDI : Option Bool
  bcWebrtcToRtpMidi : Option Bool
  bcRtpMidiToWebRTC : Option Bool
  bcUsbToWebRTC : Option Bool
  bcUsbToRtpMidi : Option Bool
deriving DecidableEq

/-- Options with every field absent (`new ElectronMIDIRTC(role)` with no
bridge options). -/
def optsNone : ElectronOptions :=
  { bridgeWebRTCtoRTPMIDI := none, bridgeRTPMIDItoWebRTC := none
  , bridgeUSBtoWebRTC := none, bridgeUSBtoRTPMIDI := none
  , bcWebrtcToRtpMidi := none, bcRtpMidiToWebRTC := none
  , bcUsbToWebRTC := none, bcUsbToRtpMidi := none }

/-- JS `options.x !== false`: true for every value except the literal `false`
(in particular for absent/undefined). -/
def jsNotFalse (v : Option Bool) : Bool := !(v == some false)

/-- The `this.bridgeConfig` initializer: each edge is `options.bridgeXtoY
!== false` (default true), then `...options.bridgeConfig` overrides. -/
def mkBridgeConfig (o : ElectronOptions) : BridgeConfig :=
  { webrtcToRtpMidi := o.bcWebrtcToRtpMidi.getD (jsNotFalse o.bridgeWebRTCtoRTPMIDI)
  , rtpMidiToWebRTC := o.bcRtpMidiToWebRTC.getD (jsNotFalse o.bridgeRTPMIDItoWebRTC)
  , usbToWebRTC := o.bcUsbToWebRTC.getD (jsNotFalse o.bridgeUSBtoWebRTC)
  , usbToRtpMidi := o.bcUsbToRtpMidi.getD (jsNotFalse o.bridgeUSBtoRTPMIDI) }

/-- The forwarding edge of `bridgeConfig` attached to an ordered
(origin, destination) transport pair; `none` when the constructor defines no
edge for that pair (there is no `webrtcToUsb` or `rtpMidiToUsb` key). -/
def edgeFlag (cfg : BridgeConfig) : Transport → Transport → Option Bool
  | Transport.webrtc, Transport.rtpmidi => some cfg.webrtcToRtpMidi
  | Transport.rtpmidi, Transport.webrtc => some cfg.rtpMidiToWebRTC
  | Transport.usb, Transport.webrtc => some cfg.usbToWebRTC
  | Transport.usb, Transport.rtpmidi => some cfg.usbToRtpMidi
  | _, _ => none

/-- All six ordered pairs of distinct transports. -/
def allOrderedPairs : List (Transport × Transport) :=
  [ (Transport.usb, Transport.webrtc), (Transport.usb, Transport.rtpmidi)
  , (Transport.webrtc, Transport.usb), (Transport.webrtc, Transport.rtpmidi)
  , (Transport.rtpmidi, Transport.usb), (Transport.rtpmidi, Transport.webrtc) ]

/-- The ordered pairs for which the constructor actually defines an edge. -/
def definedEdgePairs : List (Transport × Transport) :=
  allOrderedPairs.filter (fun p => (edgeFlag (mkBridgeConfig optsNone) p.1 p.2).isSome)

/-- State of an `ElectronMIDIRTC` instance as far as the send path reads it:
the bridge configuration, the process flag, whether RTP-MIDI is enabled and a
session object exists, and whether `rtpMidiSession.sendMessage` currently
succeeds (false models it throwing). -/
structure ElectronState where
  bridgeConfig : BridgeConfig
  isMain : Bool
  rtpMidiEnabled : Bool
  rtpMidiSession : Bool
  sessionSendOk : Bool
deriving DecidableEq

/-- `sendMIDItoRtpMidi(data)`: `false` when RTP-MIDI is disabled or no
session exists; otherwise attempts `sendMessage` and returns `false` when it
throws, `true` when it succeeds. -/
def sendMIDItoRtpMidi (st : ElectronState) (data : List Nat) : Bool :=
  if !st.rtpMidiEnabled || !st.rtpMidiSession then false
  else if st.sessionSendOk then true else false

/-- One transmission issued by `ElectronMIDIRTC.sendMIDI`: either
`super.sendMIDI(data, timestamp, channel)` over the WebRTC data channel (the
channel string is the multiplex target on the wire), or an
`rtpMidiSession.sendMessage(data)` attempt (which carries no target tag). -/
inductive Emission where
  | webrtc (data : List Nat) (timestamp : Int) (channel : String)
  | toRtpMidi (data : List Nat)
deriving DecidableEq

/-- Whether an emission goes over the WebRTC data channel. -/
def Emission.isWebrtc : Emission → Bool
  | Emission.webrtc _ _ _ => true
  | Emission.toRtpMidi _ => false

/-- Whether an emission goes to the RTP-MIDI session. -/
def Emission.isRtp : Emission → Bool
  | Emission.webrtc _ _ _ => false
  | Emission.toRtpMidi _ => true

/-- The target tag an emission carries on the wire (`none` for RTP-MIDI,
whose `sendMessage` takes only the raw bytes). -/
def Emission.targetTag : Emission → Option String
  | Emission.webrtc _ _ c => some c
  | Emission.toRtpMidi _ => none

/-- The test `['usb', 'rtpmidi', 'webrtc'].includes(channelOrSource)`. -/
def isSourceStr (s : String) : Bool :=
  s == "usb" || s == "rtpmidi" || s == "webrtc"

/-- The origin `ElectronMIDIRTC.sendMIDI` attributes to a call:
`channelOrSource` itself when it is one of the three source names, else
`'usb'`. -/
def sourceOf (channelOrSource : String) : String :=
  if isSourceStr channelOrSource then channelOrSource else "usb"

/-- The multiplex channel `ElectronMIDIRTC.sendMIDI` attributes to a call:
`'default'` when `channelOrSource` is one of the three source names, else
`channelOrSource` itself. -/
def channelOf (channelOrSource : String) : String :=
  if isSourceStr channelOrSource then "default" else channelOrSource

/-- `ElectronMIDIRTC.sendMIDI(data, timestamp, channelOrSource)`: the list of
transmissions it issues.  A WebRTC emission happens unless the source is
`'webrtc'` or the relevant bridge edge is off; an RTP-MIDI `sendMessage`
attempt happens when running in the main process with RTP-MIDI enabled,
the source is not `'rtpmidi'`, the relevant edge is on, and
`sendMIDItoRtpMidi`'s own guard (enabled and session present) passes. -/
def electronSendMIDI (st : ElectronState) (data : List Nat) (timestamp : Int)
    (channelOrSource : String) : List Emission :=
  let isSource := isSourceStr channelOrSource
  let channel := if isSource then "default" else channelOrSource
  let source := if isSource then channelOrSource else "usb"
  let webrtcPart :=
    if source != "webrtc" then
      if (source == "usb" && st.bridgeConfig.usbToWebRTC)
          || (source == "rtpmidi" && st.bridgeConfig.rtpMidiToWebRTC) then
        [Emission.webrtc data timestamp channel]
      else []
    else []
  let rtpPart :=
    if st.isMain && st.rtpMidiEnabled && source != "rtpmidi" then
      if (source == "usb" && st.bridgeConfig.usbToRtpMidi)
          || (source == "webrtc" && st.bridgeConfig.webrtcToRtpMidi) then
        if st.rtpMidiEnabled && st.rtpMidiSession then [Emission.toRtpMidi data]
        else []
      else []
    else []
  webrtcPart ++ rtpPart

/-- The output registry produced by connecting from an empty registry: the
four default targets in insertion order. -/
def defaultOutputsAssoc : List (String × VirtualOutput) :=
  defaultTargets.map (fun t => (t, mkVirtualOutput t))

/-- Invariant of the output registry over the manager's event alphabet: it is
either empty or exactly the four default outputs in insertion order. -/
def OutInv (s : ManagerState) : Prop :=
  s.virtualOutputs = [] ∨ s.virtualOutputs = defaultOutputsAssoc

/-! ## Helper lemmas -/

theorem mapHas_mapSet {α : Type} (m : List (String × α)) (k : String) (v : α) :
    mapHas (mapSet m k v) k = true := by
  induction m with
  | nil => simp [mapSet, mapHas]
  | cons p rest ih =>
      obtain ⟨k0, v0⟩ := p
      cases h : k0 == k <;> simp [mapSet, mapHas, h, ih]

theorem mapSet_of_not_has {α : Type} (m : List (String × α)) (k : String) (v : α)
    (h : mapHas m k = false) : mapSet m k v = m ++ [(k, v)] := by
  induction m with
  | nil => simp [mapSet]
  | cons p rest ih =>
      obtain ⟨k0, v0⟩ := p
      cases hk : k0 == k
      · rw [mapHas, hk] at h
        simp only [Bool.false_or] at h
        simp [mapSet, hk, ih h]
      · rw [mapHas, hk] at h
        simp at h

theorem mapSet_keys_of_has {α : Type} (m : List (String × α)) (k : String) (v : α)
    (h : mapHas m k = true) :
    (mapSet m k v).map Prod.fst = m.map Prod.fst := by
  induction m with
  | nil => simp [mapHas] at h
  | cons p rest ih =>
      obtain ⟨k0, v0⟩ := p
      cases hk : k0 == k
      · rw [mapHas, hk] at h
        simp only [Bool.false_or] at h
        simp [mapSet, hk, ih h]
      · simp [mapSet, hk]

theorem mapGet_mapSet {α : Type} (m : List (String × α)) (k : String) (v : α) :
    mapGet (mapSet m k v) k = some v := by
  induction m with
  | nil => simp [mapSet, mapGet]
  | cons p rest ih =>
      obtain ⟨k0, v0⟩ := p
      cases hk : k0 == k <;> simp [mapSet, mapGet, hk, ih]

theorem createVirtualOutput_outputs (s : ManagerState) (t : String) :
    ((createVirtualOutput s t).2).virtualOutputs
      = mapSet s.virtualOutputs t (mkVirtualOutput t) := rfl

theorem foldl_createVO_outputs (ts : List String) (s : ManagerState) :
    (ts.foldl (fun acc t => (createVirtualOutput acc t).2) s).virtualOutputs
      = ts.foldl (fun m t => mapSet m t (mkVirtualOutput t)) s.virtualOutputs := by
  induction ts generalizing s with
  | nil => rfl
  | cons t rest ih =>
      rw [List.foldl_cons, List.foldl_cons, ih]
      rfl

theorem foldl_createVO_stats (ts : List String) (s : ManagerState) :
    (ts.foldl (fun acc t => (createVirtualOutput acc t).2) s).stats = s.stats := by
  induction ts generalizing s with
  | nil => rfl
  | cons t rest ih =>
      rw [List.foldl_cons, ih]
      rfl

theorem foldl_createVO_inputs (ts : List String) (s : ManagerState) :
    (ts.foldl (fun acc t => (createVirtualOutput acc t).2) s).virtualInputs
      = s.virtualInputs := by
  induction ts generalizing s with
  | nil => rfl
  | cons t rest ih =>
      rw [List.foldl_cons, ih]
      rfl

theorem hcsc_stats (s : ManagerState) (state : String) :
    (handleConnectionStateChange s state).stats = s.stats := by
  unfold handleConnectionStateChange
  cases h1 : state == "connected" <;>
    cases h2 : (state == "disconnected" || state == "failed") <;>
      simp [h1, h2, foldl_createVO_stats]

theorem hcsc_connected_outputs (s : ManagerState) :
    (handleConnectionStateChange s "connected").virtualOutputs
      = defaultTargets.foldl (fun m t => mapSet m t (mkVirtualOutput t))
          s.virtualOutputs := by
  simp [handleConnectionStateChange, foldl_createVO_outputs]

theorem handleMIDIMessage_outputs (s : ManagerState) (m : MIDIMessage) :
    (handleMIDIMessage s m).virtualOutputs = s.virtualOutputs := by
  dsimp only [handleMIDIMessage]
  split <;> rfl

theorem handleMIDIMessage_stats (s : ManagerState) (m : MIDIMessage) :
    (handleMIDIMessage s m).stats
      = { messagesReceived := s.stats.messagesReceived + 1
        , bytesReceived := s.stats.bytesReceived + m.data.length
        , latency := m.latency } := by
  dsimp only [handleMIDIMessage]
  split <;> rfl

theorem sendMIDI_snd_stats (s : ManagerState) (d : List Nat) (t : Int) (tgt : String) :
    ((sendMIDI s d t tgt).2).stats = s.stats := by
  unfold sendMIDI
  cases s.connection with
  | none => rfl
  | some c => cases c <;> rfl

theorem sendMIDI_snd_outputs (s : ManagerState) (d : List Nat) (t : Int) (tgt : String) :
    ((sendMIDI s d t tgt).2).virtualOutputs = s.virtualOutputs := by
  unfold sendMIDI
  cases s.connection with
  | none => rfl
  | some c => cases c <;> rfl

theorem foldl_mapSet_default_empty :
    defaultTargets.foldl (fun m t => mapSet m t (mkVirtualOutput t)) []
      = defaultOutputsAssoc := by decide

theorem foldl_mapSet_default_default :
    defaultTargets.foldl (fun m t => mapSet m t (mkVirtualOutput t)) defaultOutputsAssoc
      = defaultOutputsAssoc := by decide

theorem OutInv_step (s : ManagerState) (e : MEvent) (h : OutInv s) :
    OutInv (step s e) := by
  cases e with
  | msg m =>
      show OutInv (handleMIDIMessage s m)
      unfold OutInv
      rw [handleMIDIMessage_outputs]
      exact h
  | stateChange state =>
      show OutInv (handleConnectionStateChange s state)
      cases h1 : state == "connected"
      · cases h2 : (state == "disconnected" || state == "failed")
        · unfold OutInv at h ⊢
          simpa [handleConnectionStateChange, h1, h2] using h
        · unfold OutInv
          simp [handleConnectionStateChange, h1, h2]
      · have hst : state = "connected" := eq_of_beq h1
        subst hst
        unfold OutInv
        rw [hcsc_connected_outputs]
        rcases h with h | h <;> rw [h]
        · exact Or.inr foldl_mapSet_default_empty
        · exact Or.inr foldl_mapSet_default_default
  | discon =>
      show OutInv (disconnect s)
      exact h
  | send d t tgt =>
      show OutInv ((sendMIDI s d t tgt).2)
      unfold OutInv
      rw [sendMIDI_snd_outputs]
      exact h

theorem OutInv_run (s : ManagerState) (evs : List MEvent) (h : OutInv s) :
    OutInv (run s evs) := by
  induction evs generalizing s with
  | nil => exact h
  | cons e rest ih => exact ih (step s e) (OutInv_step s e h)

theorem handleMIDIMessage_inputs_not_has (s : ManagerState) (m : MIDIMessage)
    (h : mapHas s.virtualInputs m.target = false) :
    (handleMIDIMessage s m).virtualInputs
        = s.virtualInputs ++ [(m.target, mkVirtualInput m.target)] ∧
    (handleMIDIMessage s m).discoveries = s.discoveries ++ [m.target] := by
  dsimp only [handleMIDIMessage]
  split
  · next hc => exact absurd hc (by simp [h])
  · exact ⟨mapSet_of_not_has _ _ _ h, rfl⟩

theorem handleMIDIMessage_inputs_has (s : ManagerState) (m : MIDIMessage)
    (h : mapHas s.virtualInputs m.target = true) :
    (handleMIDIMessage s m).virtualInputs = s.virtualInputs ∧
    (handleMIDIMessage s m).discoveries = s.discoveries := by
  dsimp only [handleMIDIMessage]
  split
  · exact ⟨rfl, rfl⟩
  · next hc => exact absurd h hc

theorem handleMIDIMessage_has_self (s : ManagerState) (m : MIDIMessage) :
    mapHas (handleMIDIMessage s m).virtualInputs m.target = true := by
  dsimp only [handleMIDIMessage]
  split
  · next hc => exact hc
  · exact mapHas_mapSet _ _ _

theorem esm_webrtc_filter (st : ElectronState) (data : List Nat) (ts : Int) :
    (electronSendMIDI st data ts "webrtc").filter Emission.isWebrtc = [] := by
  simp only [electronSendMIDI, isSourceStr]
  simp [List.filter_append, apply_ite (List.filter Emission.isWebrtc),
        Emission.isWebrtc]

theorem esm_rtpmidi_filter (st : ElectronState) (data : List Nat) (ts : Int) :
    (electronSendMIDI st data ts "rtpmidi").filter Emission.isRtp = [] := by
  simp only [electronSendMIDI, isSourceStr]
  simp [List.filter_append, apply_ite (List.filter Emission.isRtp),
        Emission.isRtp]

theorem esm_tag_usb (st : ElectronState) (data : List Nat) (ts : Int) :
    (electronSendMIDI st data ts "usb").filter
      (fun e => e.targetTag == some "usb") = [] := by
  simp only [electronSendMIDI, isSourceStr]
  simp [List.filter_append,
        apply_ite (List.filter (fun e => Emission.targetTag e == some "usb")),
        Emission.targetTag]
  intro a _ _ _ _ _ ha
  subst ha
  simp [Emission.targetTag]

theorem esm_tag_rtpmidi (st : ElectronState) (data : List Nat) (ts : Int) :
    (electronSendMIDI st data ts "rtpmidi").filter
      (fun e => e.targetTag == some "rtpmidi") = [] := by
  simp only [electronSendMIDI, isSourceStr]
  simp [List.filter_append,
        apply_ite (List.filter (fun e => Emission.targetTag e == some "rtpmidi")),
        Emission.targetTag]

theorem esm_tag_webrtc (st : ElectronState) (data : List Nat) (ts : Int) :
    (electronSendMIDI st data ts "webrtc").filter
      (fun e => e.targetTag == some "webrtc") = [] := by
  simp only [electronSendMIDI, isSourceStr]
  simp [List.filter_append,
        apply_ite (List.filter (fun e => Emission.targetTag e == some "webrtc")),
        Emission.targetTag]
  intro a _ _ _ _ _ ha
  subst ha
  simp [Emission.targetTag]

/-! ## Claim theorems -/

/-- C1: loop-freedom of `ElectronMIDIRTC.sendMIDI` — for every bridge
configuration and electron state, a message whose computed source is
`'webrtc'` is never transmitted over the WebRTC channel, and one whose
computed source is `'rtpmidi'` is never sent to the RTP-MIDI session. -/
theorem c1_loop_freedom (st : ElectronState) (data : List Nat) (ts : Int)
    (channelOrSource : String) :
    (sourceOf channelOrSource = "webrtc" →
      (electronSendMIDI st data ts channelOrSource).filter Emission.isWebrtc = []) ∧
    (sourceOf channelOrSource = "rtpmidi" →
      (electronSendMIDI st data ts channelOrSource).filter Emission.isRtp = []) := by
  constructor
  · intro h
    have hcos : channelOrSource = "webrtc" := by
      unfold sourceOf at h
      cases hs : isSourceStr channelOrSource
      · rw [hs] at h
        simp at h
      · rw [hs] at h
        simpa using h
    subst hcos
    exact esm_webrtc_filter st data ts
  · intro h
    have hcos : channelOrSource = "rtpmidi" := by
      unfold sourceOf at h
      cases hs : isSourceStr channelOrSource
      · rw [hs] at h
        simp at h
      · rw [hs] at h
        simpa using h
    subst hcos
    exact esm_rtpmidi_filter st data ts

/-- Witness for C1 at a concrete electron state and payload. -/
theorem c1_loop_freedom_w :
    (electronSendMIDI ⟨⟨true, true, true, true⟩, true, true, true, true⟩
        [248] 0 "webrtc").filter Emission.isWebrtc = [] ∧
    (electronSendMIDI ⟨⟨true, true, true, true⟩, true, true, true, true⟩
        [248] 0 "rtpmidi").filter Emission.isRtp = [] :=
  ⟨(c1_loop_freedom ⟨⟨true, true, true, true⟩, true, true, true, true⟩
      [248] 0 "webrtc").1 (by decide),
   (c1_loop_freedom ⟨⟨true, true, true, true⟩, true, true, true, true⟩
      [248] 0 "rtpmidi").2 (by decide)⟩

/-- C2: after any event history, the event `connection state = 'connected'`
leaves the output registry holding exactly the four virtual outputs for
`default`, `synth`, `control`, `feedback`, in that insertion order, so
`getVirtualOutputs()` immediately afterwards returns exactly those four. -/
theorem c2_connected_outputs (conn0 : Option Bool) (evs : List MEvent) :
    getVirtualOutputs
        (run (initialManager conn0) (evs ++ [MEvent.stateChange "connected"]))
      = [mkVirtualOutput "default", mkVirtualOutput "synth",
         mkVirtualOutput "control", mkVirtualOutput "feedback"] := by
  have hinv : OutInv (run (initialManager conn0) evs) :=
    OutInv_run _ _ (Or.inl rfl)
  have hrun : run (initialManager conn0) (evs ++ [MEvent.stateChange "connected"])
      = handleConnectionStateChange (run (initialManager conn0) evs) "connected" := by
    unfold run
    rw [List.foldl_append]
    rfl
  rw [hrun]
  unfold getVirtualOutputs
  rw [hcsc_connected_outputs]
  rcases hinv with h | h <;> rw [h]
  · rw [foldl_mapSet_default_empty]
    decide
  · rw [foldl_mapSet_default_default]
    decide

/-- C3 counterexample: the claim also asserts that `disconnect()` empties
`getVirtualOutputs()`, but `disconnect` clears only the input registry —
after connecting and then calling `disconnect()`, the inputs are empty while
the four outputs are still there. -/
theorem c3_disconnect_cex :
    getVirtualInputs (disconnect
        (handleConnectionStateChange (initialManager (some true)) "connected")) = [] ∧
    getVirtualOutputs (disconnect
        (handleConnectionStateChange (initialManager (some true)) "connected")) ≠ [] := by
  decide

/-- C3 amended: a connection-state transition to `'disconnected'` or
`'failed'` empties both `getVirtualInputs()` and `getVirtualOutputs()`;
`disconnect()` empties `getVirtualInputs()` and resets the connection, but
leaves the output registry unchanged. -/
theorem c3_disconnect_amended (s : ManagerState) (state : String)
    (h : state = "disconnected" ∨ state = "failed") :
    getVirtualInputs (handleConnectionStateChange s state) = [] ∧
    getVirtualOutputs (handleConnectionStateChange s state) = [] ∧
    getVirtualInputs (disconnect s) = [] ∧
    (disconnect s).virtualOutputs = s.virtualOutputs := by
  rcases h with h | h <;> subst h <;>
    exact ⟨by simp [handleConnectionStateChange, getVirtualInputs],
           by simp [handleConnectionStateChange, getVirtualOutputs], rfl, rfl⟩

/-- Witness for the amended C3 at the initial manager state. -/
theorem c3_disconnect_amended_w :
    getVirtualInputs (handleConnectionStateChange (initialManager none) "failed") = [] ∧
    getVirtualOutputs (handleConnectionStateChange (initialManager none) "failed") = [] ∧
    getVirtualInputs (disconnect (initialManager none)) = [] ∧
    (disconnect (initialManager none)).virtualOutputs
      = (initialManager none).virtualOutputs :=
  c3_disconnect_amended (initialManager none) "failed" (Or.inr rfl)

/-- C4: the first inbound message for a target creates exactly one virtual
input for it and fires exactly one discovery notification; a later message
with the same target changes neither the registry nor the notification log. -/
theorem c4_first_message (s : ManagerState) (m m2 : MIDIMessage) :
    (mapHas s.virtualInputs m.target = false →
      mapHas (handleMIDIMessage s m).virtualInputs m.target = true ∧
      (handleMIDIMessage s m).virtualInputs
        = s.virtualInputs ++ [(m.target, mkVirtualInput m.target)] ∧
      (handleMIDIMessage s m).discoveries = s.discoveries ++ [m.target]) ∧
    (mapHas s.virtualInputs m.target = true →
      (handleMIDIMessage s m).virtualInputs = s.virtualInputs ∧
      (handleMIDIMessage s m).discoveries = s.discoveries) ∧
    (m2.target = m.target →
      (handleMIDIMessage (handleMIDIMessage s m) m2).virtualInputs
        = (handleMIDIMessage s m).virtualInputs ∧
      (handleMIDIMessage (handleMIDIMessage s m) m2).discoveries
        = (handleMIDIMessage s m).discoveries) := by
  refine ⟨fun h => ⟨handleMIDIMessage_has_self s m,
            (handleMIDIMessage_inputs_not_has s m h).1,
            (handleMIDIMessage_inputs_not_has s m h).2⟩,
          fun h => handleMIDIMessage_inputs_has s m h,
          fun h => ?_⟩
  have hh : mapHas (handleMIDIMessage s m).virtualInputs m2.target = true := by
    rw [h]
    exact handleMIDIMessage_has_self s m
  exact handleMIDIMessage_inputs_has _ m2 hh

/-- Witness for C4: first message for target `control` on a fresh manager. -/
theorem c4_first_message_w :
    mapHas (handleMIDIMessage (initialManager none)
        { data := [144, 60, 127], timestamp := 0, target := "control", latency := 0 }).virtualInputs
        "control" = true ∧
    (handleMIDIMessage (initialManager none)
        { data := [144, 60, 127], timestamp := 0, target := "control", latency := 0 }).virtualInputs
      = (initialManager none).virtualInputs ++ [("control", mkVirtualInput "control")] ∧
    (handleMIDIMessage (initialManager none)
        { data := [144, 60, 127], timestamp := 0, target := "control", latency := 0 }).discoveries
      = (initialManager none).discoveries ++ ["control"] :=
  (c4_first_message (initialManager none)
      { data := [144, 60, 127], timestamp := 0, target := "control", latency := 0 }
      { data := [144, 60, 127], timestamp := 0, target := "control", latency := 0 }).1
    (by decide)

/-- C5 counterexample: `createVirtualInput` is not idempotent per target —
calling it twice with the same target fires a second discovery notification
(and replaces the stored device with a fresh one), so the second call does
not leave the notification log unchanged. -/
theorem c5_idempotent_cex :
    ((createVirtualInput (createVirtualInput (initialManager none) "synth").2
        "synth").2).discoveries = ["synth", "synth"] ∧
    (["synth", "synth"] : List String) ≠ ["synth"] := by decide

/-- C5 amended: `createVirtualInput(target)` unconditionally builds a fresh
device (with no message handler), stores it under `target` (keeping the key
set when the target already exists, appending otherwise), fires a discovery
notification on every call, and returns the fresh device; per-target
idempotence is enforced only by its caller `handleMIDIMessage`, which skips
the call when an input for the target already exists. -/
theorem c5_create_input_amended (s : ManagerState) (t : String) :
    ((createVirtualInput s t).2).discoveries = s.discoveries ++ [t] ∧
    (createVirtualInput s t).1 = mkVirtualInput t ∧
    mapGet ((createVirtualInput s t).2).virtualInputs t = some (mkVirtualInput t) ∧
    (mapHas s.virtualInputs t = true →
      ((createVirtualInput s t).2).virtualInputs.map Prod.fst
        = s.virtualInputs.map Prod.fst) ∧
    (mapHas s.virtualInputs t = false →
      ((createVirtualInput s t).2).virtualInputs
        = s.virtualInputs ++ [(t, mkVirtualInput t)]) :=
  ⟨rfl, rfl, mapGet_mapSet _ _ _,
   fun h => mapSet_keys_of_has _ _ _ h,
   fun h => mapSet_of_not_has _ _ _ h⟩

/-- Witness for the amended C5: first and second creation for target `a`. -/
theorem c5_create_input_amended_w :
    ((createVirtualInput (initialManager none) "a").2).discoveries
      = (initialManager none).discoveries ++ ["a"] ∧
    ((createVirtualInput (createVirtualInput (initialManager none) "a").2
        "a").2).virtualInputs.map Prod.fst
      = ((createVirtualInput (initialManager none) "a").2).virtualInputs.map Prod.fst :=
  ⟨(c5_create_input_amended (initialManager none) "a").1,
   (c5_create_input_amended ((createVirtualInput (initialManager none) "a").2)
      "a").2.2.2.1 (by decide)⟩

/-- C6 counterexample: the bridge configuration does not have six edges —
the constructor defines edges only for four of the six ordered transport
pairs; the pairs into the USB transport (`webrtc → usb`, `rtpmidi → usb`)
have no edge at all. -/
theorem c6_six_edges_cex :
    edgeFlag (mkBridgeConfig optsNone) Transport.webrtc Transport.usb = none ∧
    edgeFlag (mkBridgeConfig optsNone) Transport.rtpmidi Transport.usb = none ∧
    definedEdgePairs.length = 4 ∧ allOrderedPairs.length = 6 := by decide

/-- C6 amended: the bridge configuration consists of four independent
boolean edges — webrtc→rtpmidi, rtpmidi→webrtc, usb→webrtc, usb→rtpmidi —
each defaulting to true when not overridden by construction options; the two
ordered pairs into USB have no edge. -/
theorem c6_four_edges (o : ElectronOptions)
    (hspread : o.bcWebrtcToRtpMidi = none ∧ o.bcRtpMidiToWebRTC = none ∧
               o.bcUsbToWebRTC = none ∧ o.bcUsbToRtpMidi = none)
    (hopts : o.bridgeWebRTCtoRTPMIDI = none ∧ o.bridgeRTPMIDItoWebRTC = none ∧
             o.bridgeUSBtoWebRTC = none ∧ o.bridgeUSBtoRTPMIDI = none) :
    mkBridgeConfig o
      = { webrtcToRtpMidi := true, rtpMidiToWebRTC := true
        , usbToWebRTC := true, usbToRtpMidi := true } ∧
    (∀ a b : Transport,
      (edgeFlag (mkBridgeConfig o) a b).isSome
        = decide ((a, b) ∈ definedEdgePairs)) := by
  obtain ⟨hs1, hs2, hs3, hs4⟩ := hspread
  obtain ⟨ho1, ho2, ho3, ho4⟩ := hopts
  constructor
  · simp [mkBridgeConfig, jsNotFalse, hs1, hs2, hs3, hs4, ho1, ho2, ho3, ho4]
  · intro a b
    cases a <;> cases b <;> rfl

/-- Witness for the amended C6 at the all-defaults options. -/
theorem c6_four_edges_w :
    mkBridgeConfig optsNone
      = { webrtcToRtpMidi := true, rtpMidiToWebRTC := true
        , usbToWebRTC := true, usbToRtpMidi := true } ∧
    (edgeFlag (mkBridgeConfig optsNone) Transport.usb Transport.webrtc).isSome
      = decide ((Transport.usb, Transport.webrtc) ∈ definedEdgePairs) :=
  ⟨(c6_four_edges optsNone ⟨rfl, rfl, rfl, rfl⟩ ⟨rfl, rfl, rfl, rfl⟩).1,
   (c6_four_edges optsNone ⟨rfl, rfl, rfl, rfl⟩ ⟨rfl, rfl, rfl, rfl⟩).2
     Transport.usb Transport.webrtc⟩

/-- C7 (Scenario A): with `usbToWebRTC = true` and `usbToRtpMidi = false`, a
message from the USB transport is transmitted exactly once, over the WebRTC
channel with target `'default'`, and never to the RTP-MIDI transport. -/
theorem c7_scenario_a (st : ElectronState) (data : List Nat) (ts : Int)
    (h1 : st.bridgeConfig.usbToWebRTC = true)
    (h2 : st.bridgeConfig.usbToRtpMidi = false) :
    electronSendMIDI st data ts "usb" = [Emission.webrtc data ts "default"] := by
  simp only [electronSendMIDI, isSourceStr]
  simp [h1, h2]

/-- Witness for C7 at a concrete electron state and the note-on payload. -/
theorem c7_scenario_a_w :
    electronSendMIDI ⟨⟨true, true, true, false⟩, true, true, true, true⟩
        [144, 60, 127] 0 "usb"
      = [Emission.webrtc [144, 60, 127] 0 "default"] :=
  c7_scenario_a ⟨⟨true, true, true, false⟩, true, true, true, true⟩
    [144, 60, 127] 0 rfl rfl

/-- C8: every inbound message adds exactly 1 to `messagesReceived` and the
payload length to `bytesReceived` and overwrites `latency` with the latest
observation; no manager event (state change, disconnect, send) decrements or
resets the counters, which start at zero only in the constructor. -/
theorem c8_stats_monotone (s : ManagerState) (e : MEvent) (m : MIDIMessage)
    (state : String) (conn0 : Option Bool) :
    s.stats.messagesReceived ≤ (step s e).stats.messagesReceived ∧
    s.stats.bytesReceived ≤ (step s e).stats.bytesReceived ∧
    (step s (MEvent.msg m)).stats.messagesReceived = s.stats.messagesReceived + 1 ∧
    (step s (MEvent.msg m)).stats.bytesReceived
      = s.stats.bytesReceived + m.data.length ∧
    (step s (MEvent.msg m)).stats.latency = m.latency ∧
    (step s (MEvent.stateChange state)).stats = s.stats ∧
    (step s MEvent.discon).stats = s.stats ∧
    (initialManager conn0).stats
      = { messagesReceived := 0, bytesReceived := 0, latency := 0 } := by
  refine ⟨?_, ?_, ?_, ?_, ?_, hcsc_stats s state, rfl, rfl⟩
  · cases e with
    | msg m0 =>
        show s.stats.messagesReceived ≤ (handleMIDIMessage s m0).stats.messagesReceived
        rw [handleMIDIMessage_stats]
        exact Nat.le_succ _
    | stateChange st0 =>
        show s.stats.messagesReceived
          ≤ (handleConnectionStateChange s st0).stats.messagesReceived
        rw [hcsc_stats]
    | discon => exact le_refl _
    | send d t tgt =>
        show s.stats.messagesReceived ≤ ((sendMIDI s d t tgt).2).stats.messagesReceived
        rw [sendMIDI_snd_stats]
  · cases e with
    | msg m0 =>
        show s.stats.bytesReceived ≤ (handleMIDIMessage s m0).stats.bytesReceived
        rw [handleMIDIMessage_stats]
        exact Nat.le_add_right _ _
    | stateChange st0 =>
        show s.stats.bytesReceived
          ≤ (handleConnectionStateChange s st0).stats.bytesReceived
        rw [hcsc_stats]
    | discon => exact le_refl _
    | send d t tgt =>
        show s.stats.bytesReceived ≤ ((sendMIDI s d t tgt).2).stats.bytesReceived
        rw [sendMIDI_snd_stats]
  · show (handleMIDIMessage s m).stats.messagesReceived = s.stats.messagesReceived + 1
    rw [handleMIDIMessage_stats]
  · show (handleMIDIMessage s m).stats.bytesReceived
      = s.stats.bytesReceived + m.data.length
    rw [handleMIDIMessage_stats]
  · show (handleMIDIMessage s m).stats.latency = m.latency
    rw [handleMIDIMessage_stats]

/-- C9: send-path failures are reported only through boolean results —
`WebRTCMIDIManager.sendMIDI` returns `false` and leaves the state untouched
when the connection is missing or not connected and `true` otherwise;
`sendMIDItoRtpMidi` returns `false` when the RTP-MIDI transport is
unavailable and when the delivery attempt throws. -/
theorem c9_send_failures (s : ManagerState) (d : List Nat) (ts : Int)
    (tgt : String) (est : ElectronState) (d2 : List Nat) :
    (s.connection = none → sendMIDI s d ts tgt = (false, s)) ∧
    (s.connection = some false → sendMIDI s d ts tgt = (false, s)) ∧
    (s.connection = some true → (sendMIDI s d ts tgt).1 = true) ∧
    (est.rtpMidiEnabled = false → sendMIDItoRtpMidi est d2 = false) ∧
    (est.rtpMidiSession = false → sendMIDItoRtpMidi est d2 = false) ∧
    (est.rtpMidiEnabled = true → est.rtpMidiSession = true →
      sendMIDItoRtpMidi est d2 = est.sessionSendOk) := by
  refine ⟨fun h => ?_, fun h => ?_, fun h => ?_, fun h => ?_, fun h => ?_,
          fun h1 h2 => ?_⟩
  · simp [sendMIDI, h]
  · simp [sendMIDI, h]
  · simp [sendMIDI, h]
  · simp [sendMIDItoRtpMidi, h]
  · simp [sendMIDItoRtpMidi, h]
  · cases hs : est.sessionSendOk <;> simp [sendMIDItoRtpMidi, h1, h2, hs]

/-- Witness for C9 at concrete manager and electron states. -/
theorem c9_send_failures_w :
    sendMIDI (initialManager none) [144] 0 "default" = (false, initialManager none) ∧
    sendMIDI (initialManager (some false)) [144] 0 "default"
      = (false, initialManager (some false)) ∧
    (sendMIDI (initialManager (some true)) [144] 0 "default").1 = true ∧
    sendMIDItoRtpMidi ⟨⟨true, true, true, true⟩, true, false, true, true⟩ [144] = false ∧
    sendMIDItoRtpMidi ⟨⟨true, true, true, true⟩, true, true, false, true⟩ [144] = false ∧
    sendMIDItoRtpMidi ⟨⟨true, true, true, true⟩, true, true, true, false⟩ [144] = false :=
  ⟨(c9_send_failures (initialManager none) [144] 0 "default"
      ⟨⟨true, true, true, true⟩, true, false, true, true⟩ [144]).1 rfl,
   (c9_send_failures (initialManager (some false)) [144] 0 "default"
      ⟨⟨true, true, true, true⟩, true, false, true, true⟩ [144]).2.1 rfl,
   (c9_send_failures (initialManager (some true)) [144] 0 "default"
      ⟨⟨true, true, true, true⟩, true, false, true, true⟩ [144]).2.2.1 rfl,
   (c9_send_failures (initialManager none) [144] 0 "default"
      ⟨⟨true, true, true, true⟩, true, false, true, true⟩ [144]).2.2.2.1 rfl,
   (c9_send_failures (initialManager none) [144] 0 "default"
      ⟨⟨true, true, true, true⟩, true, true, false, true⟩ [144]).2.2.2.2.1 rfl,
   (c9_send_failures (initialManager none) [144] 0 "default"
      ⟨⟨true, true, true, true⟩, true, true, true, false⟩ [144]).2.2.2.2.2 rfl rfl⟩

/-- C10: `ElectronMIDIRTC.sendMIDI` reinterprets its third argument — the
strings `'usb'`, `'rtpmidi'`, `'webrtc'` become the origin with the multiplex
channel forced to `'default'`, every other string becomes the channel with
origin `'usb'`; hence a call passing one of those three strings never
transmits that string as a target tag on any transport. -/
theorem c10_source_reinterpretation (st : ElectronState) (data : List Nat)
    (ts : Int) (channelOrSource : String) :
    (isSourceStr channelOrSource = true →
      sourceOf channelOrSource = channelOrSource ∧
      channelOf channelOrSource = "default" ∧
      (electronSendMIDI st data ts channelOrSource).filter
        (fun e => e.targetTag == some channelOrSource) = []) ∧
    (isSourceStr channelOrSource = false →
      sourceOf channelOrSource = "usb" ∧
      channelOf channelOrSource = channelOrSource) := by
  constructor
  · intro h
    refine ⟨by simp [sourceOf, h], by simp [channelOf, h], ?_⟩
    have h3 : (channelOrSource = "usb" ∨ channelOrSource = "rtpmidi")
        ∨ channelOrSource = "webrtc" := by
      simpa [isSourceStr] using h
    rcases h3 with (h3 | h3) | h3 <;> subst h3
    · exact esm_tag_usb st data ts
    · exact esm_tag_rtpmidi st data ts
    · exact esm_tag_webrtc st data ts
  · intro h
    exact ⟨by simp [sourceOf, h], by simp [channelOf, h]⟩

/-- Witness for C10 with the source string `'rtpmidi'` and the plain target
`'synth'`. -/
theorem c10_source_reinterpretation_w :
    (sourceOf "rtpmidi" = "rtpmidi" ∧ channelOf "rtpmidi" = "default" ∧
      (electronSendMIDI ⟨⟨true, true, true, true⟩, true, true, true, true⟩
          [144] 0 "rtpmidi").filter
        (fun e => e.targetTag == some "rtpmidi") = []) ∧
    (sourceOf "synth" = "usb" ∧ channelOf "synth" = "synth") :=
  ⟨(c10_source_reinterpretation ⟨⟨true, true, true, true⟩, true, true, true, true⟩
      [144] 0 "rtpmidi").1 (by decide),
   (c10_source_reinterpretation ⟨⟨true, true, true, true⟩, true, true, true, true⟩
      [144] 0 "synth").2 (by decide)⟩

end MidiRtc
